import Mathlib

set_option maxRecDepth 8000

/-! Shallow embedding of the Transport-OCR-Agent core (src/utils.py and the
pure parts of src/app.py), together with proofs of the specification claims.

Modelling conventions:
* Python `str` is Lean `String`; a parameter that Python fills from the wall
  clock (`datetime.now()`) is passed in explicitly as `now`.
* Python `None` is `Option.none`; the truthiness test `if not x` on a string
  is `x = ""` (and `none` for an absent value).
* The Python dict returned by `create_summary_stats` is an ordered
  key-value list `List (String × StatValue)` (insertion order preserved,
  as in Python 3.7+). -/

/-- Characters that the Python function `str.split()` (no separator) treats as whitespace:
the ASCII whitespace characters plus the Unicode space separators that
the CPython predicate `str.isspace` recognises. -/
def isPySpace (c : Char) : Bool :=
  c == ' ' || c == '\t' || c == '\n' || c == '\x0b' || c == '\x0c' || c == '\r'
  || c == '\x1c' || c == '\x1d' || c == '\x1e' || c == '\x1f'
  || c == '\x85' || c == '\xa0' || c == ' '
  || (Nat.ble 0x2000 c.toNat && Nat.ble c.toNat 0x200a)
  || c == ' ' || c == ' ' || c == ' ' || c == ' ' || c == '　'

/-- Worker for `pySplitWs`: `acc` holds the current token, reversed. -/
def pySplitWsAux : List Char → List Char → List (List Char)
  | [], acc => if acc.isEmpty then [] else [acc.reverse]
  | c :: cs, acc =>
    if isPySpace c then
      if acc.isEmpty then pySplitWsAux cs [] else acc.reverse :: pySplitWsAux cs []
    else pySplitWsAux cs (c :: acc)

/-- Python `s.split()` with no separator: splits on runs of whitespace and
returns no empty tokens. -/
def pySplitWs (s : List Char) : List (List Char) :=
  pySplitWsAux s []

/-- Worker for `pySplitOn`: `acc` holds the current segment, reversed. -/
def pySplitOnAux (sep : Char) : List Char → List Char → List (List Char)
  | [], acc => [acc.reverse]
  | c :: cs, acc =>
    if c == sep then acc.reverse :: pySplitOnAux sep cs []
    else pySplitOnAux sep cs (c :: acc)

/-- Python `s.split(sep)` for a one-character separator: splits at every
occurrence and keeps empty segments, so the result has one segment more
than the number of separators. -/
def pySplitOn (sep : Char) (s : List Char) : List (List Char) :=
  pySplitOnAux sep s []

/-- `startsWith s pat`: `pat` is a leading segment of `s`. -/
def startsWith : List Char → List Char → Bool
  | _, [] => true
  | [], _ :: _ => false
  | c :: cs, p :: ps => c == p && startsWith cs ps

/-- `containsSub s pat`: `pat` occurs contiguously somewhere inside `s`
(the Python test `pat in s`). -/
def containsSub : List Char → List Char → Bool
  | [], pat => pat.isEmpty
  | c :: cs, pat => startsWith (c :: cs) pat || containsSub cs pat

/-- `seqSublist xs ys`: the items of `xs` all appear in `ys`, in the same
relative order (an in-order subsequence check). -/
def seqSublist : List (List Char) → List (List Char) → Bool
  | [], _ => true
  | _ :: _, [] => false
  | x :: xs, y :: ys => if x == y then seqSublist xs ys else seqSublist (x :: xs) ys

/-- The separator rule `"=" * 50` used by `format_extracted_data`. -/
def sepRule : String :=
  String.mk (List.replicate 50 '=')

/-- `utils.format_extracted_data` (src/utils.py lines 10-30). The timestamp
it reads from the wall clock is the explicit parameter `now`; `none`
models a Python `None` argument (falsy, like the empty string). -/
def format_extracted_data (now : String) (raw_text : Option String) : String :=
  match raw_text with
  | none => "No data extracted"
  | some t =>
    if t = "" then "No data extracted"
    else
      "Extraction Timestamp: " ++ now ++ "\n\n"
        ++ (sepRule ++ "\n")
        ++ t
        ++ ("\n" ++ sepRule)

/-- The `"Invoice"` entry of the field dictionary in
`utils.get_document_type_fields`. -/
def invoiceFields : List String :=
  ["Invoice Number", "Invoice Date", "Vendor Name", "Customer Name",
   "Line Items", "Subtotal", "Tax", "Total Amount"]

/-- The `"Receipt"` entry of the field dictionary. -/
def receiptFields : List String :=
  ["Store Name", "Receipt Number", "Date and Time", "Items Purchased",
   "Subtotal", "Tax", "Total Amount", "Payment Method"]

/-- The `"Email"` entry of the field dictionary. -/
def emailFields : List String :=
  ["From", "To", "Date", "Subject", "Body Content", "Attachments"]

/-- The `"General Document"` entry of the field dictionary. -/
def generalDocumentFields : List String :=
  ["Document Title", "Date", "Author/Sender", "Key Entities", "Summary"]

/-- `utils.get_document_type_fields` (src/utils.py lines 58-106):
`fields.get(doc_type, fields["General Document"])`, a dictionary lookup
falling back to the General Document list for any unknown key. -/
def get_document_type_fields (doc_type : String) : List String :=
  if doc_type = "Invoice" then invoiceFields
  else if doc_type = "Receipt" then receiptFields
  else if doc_type = "Email" then emailFields
  else if doc_type = "General Document" then generalDocumentFields
  else generalDocumentFields

/-- A value stored in the summary-statistics dictionary: the Python dict
mixes strings and integers. -/
inductive StatValue where
  | str (s : String)
  | num (n : Nat)
deriving DecidableEq

/-- First-match lookup in the ordered key-value list (Python `d[k]` /
`k in d`). -/
def lookupStat (k : String) : List (String × StatValue) → Option StatValue
  | [] => none
  | (k2, v) :: rest => if k2 = k then some v else lookupStat k rest

/-- `utils.create_summary_stats` (src/utils.py lines 138-158). `now` is the
`datetime.now().isoformat()` reading; `none` models a `None` argument,
which the Python guard `if not extracted_text` also sends to the
`"No data"` branch. -/
def create_summary_stats (now : String) (extracted_text : Option String) :
    List (String × StatValue) :=
  match extracted_text with
  | none => [("status", StatValue.str "No data")]
  | some t =>
    if t = "" then [("status", StatValue.str "No data")]
    else
      [("status", StatValue.str "Success"),
       ("character_count", StatValue.num t.length),
       ("word_count", StatValue.num (pySplitWs t.data).length),
       ("line_count", StatValue.num (pySplitOn '\n' t.data).length),
       ("timestamp", StatValue.str now)]

/-- `base_prompt` of `app.create_extraction_prompt` (src/app.py lines
170-175). It is a plain triple-quoted string, not an f-string, so
`\x7bdoc_type\x7d` is literal text in it. -/
def base_prompt : String :=
  "You are an expert document analyzer. Extract all relevant entities from the provided document image.\n    \nDocument Type: \x7bdoc_type\x7d\n\nPlease extract and structure the following information:\n"

/-- The `specific_fields` block assigned for `doc_type == "Invoice"`
(src/app.py lines 178-198). -/
def invoicePromptBlock : String :=
  "\n- Invoice Number\n- Invoice Date\n- Due Date\n- Vendor/Supplier Name\n- Vendor Address\n- Vendor Contact\n- Customer/Buyer Name\n- Customer Address\n- Billing Address\n- Shipping Address\n- Line Items (with descriptions, quantities, unit prices, totals)\n- Subtotal\n- Tax Amount\n- Tax Rate\n- Discount (if any)\n- Total Amount\n- Payment Terms\n- Currency\n- Purchase Order Number (if any)\n"

/-- The `specific_fields` block assigned for `doc_type == "Receipt"`
(src/app.py lines 200-215). -/
def receiptPromptBlock : String :=
  "\n- Store/Merchant Name\n- Store Address\n- Store Contact\n- Receipt Number/Transaction ID\n- Date and Time\n- Cashier/Server Name (if any)\n- Items Purchased (with quantities and prices)\n- Subtotal\n- Tax Amount\n- Total Amount\n- Payment Method\n- Card Last 4 Digits (if applicable)\n- Change Given (if any)\n- Return Policy Information\n"

/-- The `specific_fields` block assigned for `doc_type == "Email"`
(src/app.py lines 217-231). -/
def emailPromptBlock : String :=
  "\n- From: Sender name and email address\n- To: Recipient name(s) and email address(es)\n- CC: Carbon copy recipients (if any)\n- BCC: Blind carbon copy (if visible)\n- Date and Time\n- Subject Line\n- Email Body Content\n- Attachments Mentioned\n- Signature Block\n- Contact Information\n- Any URLs or Links\n- Action Items or Requests\n- Key Dates or Deadlines\n"

/-- The `specific_fields` block of the `else` branch (General Document,
Auto-detect, or any other tag; src/app.py lines 233-245). -/
def generalPromptBlock : String :=
  "\n- Document Title/Type\n- Document Date\n- Sender/Author Information\n- Recipient Information\n- Key Entities (Names, Organizations, Locations)\n- Important Dates\n- Monetary Amounts\n- Contact Information\n- Reference Numbers\n- Main Content Summary\n- Action Items (if any)\n"

/-- The closing instruction block appended by `app.create_extraction_prompt`
(src/app.py lines 247-252). -/
def closingPromptBlock : String :=
  "\n\nFormat your response as a structured JSON-like output with clear labels and values.\nIf a field is not present in the document, mark it as \"Not found\" or \"N/A\".\nBe thorough and extract all visible information from the document.\n"

/-- The `specific_fields` selection of `app.create_extraction_prompt`:
an if/elif/elif/else chain on the document type. -/
def specific_fields (doc_type : String) : String :=
  if doc_type = "Invoice" then invoicePromptBlock
  else if doc_type = "Receipt" then receiptPromptBlock
  else if doc_type = "Email" then emailPromptBlock
  else generalPromptBlock

/-- `app.create_extraction_prompt` (src/app.py lines 168-252):
`base_prompt + specific_fields + closing`. -/
def create_extraction_prompt (doc_type : String) : String :=
  base_prompt ++ specific_fields doc_type ++ closingPromptBlock

/-- The non-empty lines of the `specific_fields` block for a document type:
the field lines the prompt builder itself hardcodes for that branch. -/
def promptFieldLines (doc_type : String) : List (List Char) :=
  (pySplitOn '\n' (specific_fields doc_type).data).filter (fun l => !l.isEmpty)

/-- `actual_doc_type` (src/app.py line 394):
`doc_type if doc_type != "Auto-detect" else "General Document"`, applied
by the caller before prompt building, extraction and persistence. -/
def actual_doc_type (doc_type : String) : String :=
  if doc_type ≠ "Auto-detect" then doc_type else "General Document"

/-- Ambient runtime state an invocation could observe (a wall-clock reading
and a randomness seed). The body of `create_extraction_prompt` reads none
of it. -/
structure RuntimeState where
  now : String
  seed : Nat

/-- `create_extraction_prompt` as invoked in an ambient runtime state: the
source body never consults the state, which this wrapper makes explicit. -/
def create_extraction_prompt_invoke (_st : RuntimeState) (doc_type : String) : String :=
  create_extraction_prompt doc_type

/-- Document-type handling of the extraction pipeline (src/app.py lines
393-403): the UI tag is resolved by `actual_doc_type` first, and the
resolved tag is what reaches the prompt builder. -/
def pipeline_prompt (ui_doc_type : String) : String :=
  create_extraction_prompt (actual_doc_type ui_doc_type)

/-- Helper: the registry never returns an empty list. -/
theorem get_document_type_fields_length_pos (t : String) :
    0 < (get_document_type_fields t).length := by
  unfold get_document_type_fields
  split
  · decide
  split
  · decide
  split
  · decide
  split
  · decide
  · decide

/-- Helper: any tag other than the three specifically matched ones gets the
General Document field list (this covers `"General Document"` itself,
whose dictionary entry coincides with the fallback). -/
theorem get_document_type_fields_fallback (t : String)
    (h1 : t ≠ "Invoice") (h2 : t ≠ "Receipt") (h3 : t ≠ "Email") :
    get_document_type_fields t = generalDocumentFields := by
  unfold get_document_type_fields
  rw [if_neg h1, if_neg h2, if_neg h3]
  split <;> rfl

/-- Helper: any tag other than the three specifically matched ones gets the
General Document specific-fields block. -/
theorem specific_fields_fallback (t : String)
    (h1 : t ≠ "Invoice") (h2 : t ≠ "Receipt") (h3 : t ≠ "Email") :
    specific_fields t = generalPromptBlock := by
  unfold specific_fields
  rw [if_neg h1, if_neg h2, if_neg h3]

/-- Helper: splitting on a separator that does not occur yields exactly one
segment, whatever is already in the accumulator. -/
theorem pySplitOnAux_length_no_sep (sep : Char) (l : List Char) :
    ∀ acc : List Char, l.all (fun c => !(c == sep)) = true →
      (pySplitOnAux sep l acc).length = 1 := by
  induction l with
  | nil => intro acc _; rfl
  | cons c cs ih =>
    intro acc h
    rw [List.all_cons, Bool.and_eq_true] at h
    have hc : (c == sep) = false := by
      cases hcs : c == sep
      · rfl
      · rw [hcs] at h; exact absurd h.1 (by decide)
    unfold pySplitOnAux
    rw [hc]
    exact ih _ h.2

/-- Helper: a newline-free string has exactly one newline segment. -/
theorem pySplitOn_length_no_newline (s : String)
    (h : s.data.all (fun c => !(c == '\n')) = true) :
    (pySplitOn '\n' s.data).length = 1 :=
  pySplitOnAux_length_no_sep '\n' s.data [] h

/-- Claim C1 counterexample: the registry field name `"Vendor Name"` (an
element of `get_document_type_fields "Invoice"`) does not occur anywhere in
the prompt `create_extraction_prompt "Invoice"` — the builder hardcodes
`"Vendor/Supplier Name"` instead — so the prompt does not contain every
field name returned by the registry, let alone one per line in order. -/
theorem c1_registry_fields_not_in_prompt :
    "Vendor Name" ∈ get_document_type_fields "Invoice"
    ∧ containsSub (create_extraction_prompt "Invoice").data ("Vendor Name".data) = false := by
  constructor
  · decide
  · rfl

/-- Claim C1 (amended): for every document-type tag, the prompt returned by
`create_extraction_prompt` contains every field line of the hardcoded field block of the builder
for the selected branch, one per line and in the order of that block; the
field names come from the hardcoded blocks of the builder, not
from `get_document_type_fields`. -/
theorem c1_prompt_contains_own_field_lines (t : String) :
    seqSublist (promptFieldLines t)
      (pySplitOn '\n' (create_extraction_prompt t).data) = true := by
  unfold promptFieldLines create_extraction_prompt specific_fields
  split
  · rfl
  split
  · rfl
  split
  · rfl
  · rfl

/-- Claim C2: for every input tag, `get_document_type_fields` returns a
non-empty list; for any tag outside the four dictionary keys the result
equals the General Document list, which contains `"Document Title"` and
`"Summary"`; in particular `"NotARealType"` falls back. -/
theorem c2_registry_total_with_fallback :
    (∀ t : String, 0 < (get_document_type_fields t).length)
    ∧ (∀ t : String, t ≠ "Invoice" → t ≠ "Receipt" → t ≠ "Email" →
        t ≠ "General Document" →
        get_document_type_fields t = generalDocumentFields)
    ∧ get_document_type_fields "NotARealType" = generalDocumentFields
    ∧ "Document Title" ∈ generalDocumentFields
    ∧ "Summary" ∈ generalDocumentFields := by
  refine ⟨get_document_type_fields_length_pos, ?_, ?_, ?_, ?_⟩
  · intro t h1 h2 h3 _
    exact get_document_type_fields_fallback t h1 h2 h3
  · rfl
  · decide
  · decide

/-- Claim C2 witness: the fallback instantiated at the unrecognized tag
`"NotARealType"`. -/
theorem c2_registry_total_with_fallback_witness :
    0 < (get_document_type_fields "NotARealType").length
    ∧ get_document_type_fields "NotARealType" = generalDocumentFields :=
  ⟨c2_registry_total_with_fallback.1 "NotARealType",
   c2_registry_total_with_fallback.2.1 "NotARealType"
     (by decide) (by decide) (by decide) (by decide)⟩

/-- Claim C3: on the empty string and on an absent (`None`) value,
`create_summary_stats` returns exactly `{"status": "No data"}`: the only
key is `"status"`, and none of `character_count`, `word_count`,
`line_count`, `timestamp` is present. -/
theorem c3_summary_stats_no_data (now : String) :
    create_summary_stats now none = [("status", StatValue.str "No data")]
    ∧ create_summary_stats now (some "") = [("status", StatValue.str "No data")]
    ∧ (create_summary_stats now none).map Prod.fst = ["status"]
    ∧ (create_summary_stats now (some "")).map Prod.fst = ["status"]
    ∧ lookupStat "character_count" (create_summary_stats now (some "")) = none
    ∧ lookupStat "word_count" (create_summary_stats now (some "")) = none
    ∧ lookupStat "line_count" (create_summary_stats now (some "")) = none
    ∧ lookupStat "timestamp" (create_summary_stats now (some "")) = none :=
  ⟨rfl, rfl, rfl, rfl, rfl, rfl, rfl, rfl⟩

/-- Claim C4: on any non-empty string, `create_summary_stats` reports status
`"Success"`, the code-point length, the number of whitespace-delimited
tokens and the number of newline-delimited segments; a newline-free string
has line count 1; `"Hello world test"` yields word count 3, character
count 16 and line count 1, and `"line1\nline2\nline3"` yields line
count 3. -/
theorem c4_summary_stats_success (now s : String) (h : s ≠ "") :
    create_summary_stats now (some s) =
      [("status", StatValue.str "Success"),
       ("character_count", StatValue.num s.length),
       ("word_count", StatValue.num (pySplitWs s.data).length),
       ("line_count", StatValue.num (pySplitOn '\n' s.data).length),
       ("timestamp", StatValue.str now)]
    ∧ (s.data.all (fun c => !(c == '\n')) = true →
        (pySplitOn '\n' s.data).length = 1)
    ∧ lookupStat "status" (create_summary_stats now (some "Hello world test"))
        = some (StatValue.str "Success")
    ∧ lookupStat "word_count" (create_summary_stats now (some "Hello world test"))
        = some (StatValue.num 3)
    ∧ lookupStat "character_count" (create_summary_stats now (some "Hello world test"))
        = some (StatValue.num 16)
    ∧ lookupStat "line_count" (create_summary_stats now (some "Hello world test"))
        = some (StatValue.num 1)
    ∧ lookupStat "line_count" (create_summary_stats now (some "line1\nline2\nline3"))
        = some (StatValue.num 3) := by
  refine ⟨?_, pySplitOn_length_no_newline s, rfl, rfl, rfl, rfl, rfl⟩
  simp only [create_summary_stats]
  rw [if_neg h]

/-- Claim C4 witness: the theorem instantiated at `"Hello world test"`. -/
theorem c4_summary_stats_success_witness :
    create_summary_stats "T" (some "Hello world test") =
      [("status", StatValue.str "Success"),
       ("character_count", StatValue.num ("Hello world test").length),
       ("word_count", StatValue.num (pySplitWs ("Hello world test").data).length),
       ("line_count", StatValue.num (pySplitOn '\n' ("Hello world test").data).length),
       ("timestamp", StatValue.str "T")]
    ∧ (pySplitOn '\n' ("Hello world test").data).length = 1 :=
  ⟨(c4_summary_stats_success "T" "Hello world test" (by decide)).1,
   (c4_summary_stats_success "T" "Hello world test" (by decide)).2.1 (by decide)⟩

/-- Claim C5: on any non-empty string, `format_extracted_data` returns the
raw text verbatim, preceded by the timestamp header and the separator rule
(plus a newline) and followed by a newline and the same separator rule,
whose width is exactly 50 characters. -/
theorem c5_format_round_trip (now raw : String) (h : raw ≠ "") :
    format_extracted_data now (some raw)
      = ("Extraction Timestamp: " ++ now ++ "\n\n" ++ (sepRule ++ "\n"))
          ++ raw ++ ("\n" ++ sepRule)
    ∧ sepRule.length = 50 := by
  constructor
  · simp only [format_extracted_data]
    rw [if_neg h]
  · rfl

/-- Claim C5 witness: the round trip instantiated at concrete text. -/
theorem c5_format_round_trip_witness :
    format_extracted_data "2024-01-01 00:00:00" (some "raw body")
      = ("Extraction Timestamp: " ++ "2024-01-01 00:00:00" ++ "\n\n" ++ (sepRule ++ "\n"))
          ++ "raw body" ++ ("\n" ++ sepRule)
    ∧ sepRule.length = 50 :=
  c5_format_round_trip "2024-01-01 00:00:00" "raw body" (by decide)

/-- Claim C6: `create_extraction_prompt` is deterministic — two invocations
with the same tag, under arbitrary and possibly different ambient runtime
states (clock, randomness), produce byte-identical strings. -/
theorem c6_prompt_deterministic :
    ∀ (st1 st2 : RuntimeState) (t : String),
      create_extraction_prompt_invoke st1 t = create_extraction_prompt_invoke st2 t :=
  fun _ _ _ => rfl

/-- Claim C7: the caller resolves `"Auto-detect"` to `"General Document"`
before anything else; no output of `actual_doc_type` is ever
`"Auto-detect"`, so it is never used as a registry key; and the prompt and
registry behaviour reached from `"Auto-detect"` equal those of
`"General Document"`. -/
theorem c7_auto_detect_resolved :
    actual_doc_type "Auto-detect" = "General Document"
    ∧ (∀ t : String, (actual_doc_type t == "Auto-detect") = false)
    ∧ pipeline_prompt "Auto-detect" = pipeline_prompt "General Document"
    ∧ create_extraction_prompt (actual_doc_type "Auto-detect")
        = create_extraction_prompt "General Document"
    ∧ get_document_type_fields (actual_doc_type "Auto-detect")
        = get_document_type_fields "General Document" := by
  refine ⟨rfl, ?_, rfl, rfl, rfl⟩
  intro t
  unfold actual_doc_type
  split
  · rename_i hne
    exact beq_eq_false_iff_ne.mpr hne
  · rfl

/-- Claim C8: the four core operations are total over all (string or
absent) inputs and always return well-formed results: a non-empty field
list, a non-empty prompt, a statistics dictionary whose keys are either
exactly `["status"]` or exactly the five success keys, and a non-empty
formatted string. -/
theorem c8_core_operations_total (now tag : String) (t : Option String) :
    0 < (get_document_type_fields tag).length
    ∧ 0 < (create_extraction_prompt tag).length
    ∧ ((create_summary_stats now t).map Prod.fst = ["status"]
       ∨ (create_summary_stats now t).map Prod.fst =
           ["status", "character_count", "word_count", "line_count", "timestamp"])
    ∧ 0 < (format_extracted_data now t).length := by
  refine ⟨get_document_type_fields_length_pos tag, ?_, ?_, ?_⟩
  · unfold create_extraction_prompt specific_fields
    split
    · decide
    split
    · decide
    split
    · decide
    · decide
  · match t with
    | none => exact Or.inl rfl
    | some s =>
      by_cases hs : s = ""
      · subst hs; exact Or.inl rfl
      · right
        simp only [create_summary_stats]
        rw [if_neg hs]
        rfl
  · match t with
    | none => simp only [format_extracted_data]; decide
    | some s =>
      by_cases hs : s = ""
      · subst hs
        show 0 < ("No data extracted").length
        decide
      · simp only [format_extracted_data]
        rw [if_neg hs]
        rw [String.length_append, String.length_append]
        have h1 : 0 < ("\n" ++ sepRule).length := by decide
        omega

/-- Claim C9: every prompt contains the literal text
`Document Type: \x7bdoc_type\x7d` (the base template is not an f-string, so
the tag is never interpolated), and all tags selecting the `else` branch —
`"Auto-detect"`, `"General Document"`, and any unrecognized tag — yield
byte-identical prompts. -/
theorem c9_prompt_literal_doc_type :
    (∀ t : String,
      containsSub (create_extraction_prompt t).data
        ("Document Type: \x7bdoc_type\x7d".data) = true)
    ∧ create_extraction_prompt "Auto-detect" = create_extraction_prompt "General Document"
    ∧ create_extraction_prompt "NotARealType" = create_extraction_prompt "General Document"
    ∧ (∀ t : String, t ≠ "Invoice" → t ≠ "Receipt" → t ≠ "Email" →
        create_extraction_prompt t = create_extraction_prompt "General Document") := by
  refine ⟨?_, rfl, rfl, ?_⟩
  · intro t
    unfold create_extraction_prompt specific_fields
    split
    · rfl
    split
    · rfl
    split
    · rfl
    · rfl
  · intro t h1 h2 h3
    unfold create_extraction_prompt
    rw [specific_fields_fallback t h1 h2 h3]
    rfl

/-- Claim C9 witness: the literal marker and the branch equality
instantiated at `"Auto-detect"`. -/
theorem c9_prompt_literal_doc_type_witness :
    containsSub (create_extraction_prompt "Auto-detect").data
      ("Document Type: \x7bdoc_type\x7d".data) = true
    ∧ create_extraction_prompt "Auto-detect" = create_extraction_prompt "General Document" :=
  ⟨c9_prompt_literal_doc_type.1 "Auto-detect",
   c9_prompt_literal_doc_type.2.2.2 "Auto-detect" (by decide) (by decide) (by decide)⟩

/-- Claim C10: on the empty string and on an absent (`None`) value,
`format_extracted_data` returns exactly `"No data extracted"`, which
contains no timestamp header and no separator rule. -/
theorem c10_format_no_data (now : String) :
    format_extracted_data now (some "") = "No data extracted"
    ∧ format_extracted_data now none = "No data extracted"
    ∧ containsSub (format_extracted_data now (some "")).data
        ("Extraction Timestamp".data) = false
    ∧ containsSub (format_extracted_data now (some "")).data ("=".data) = false :=
  ⟨rfl, rfl, rfl, rfl⟩
